import Mathlib

/-!
# Verification of the ADB MCP server's command layer

A shallow embedding, in Lean 4, of the command argument construction and
subprocess-result interpretation layer of the `adb-mcp` server
(`src/index.ts` and `src/types.ts`).

JavaScript strings are modelled as Lean `String`s (sequences of Unicode
scalar values); JavaScript numbers that the code uses as integral values
(timestamps from `Date.now()`, the logcat line limit) are modelled as
`Nat` / `Int`.  Fallible asynchronous calls (spawning `adb`, reading and
writing files, deleting files) are modelled by `Except String` oracle
values supplied to each handler: `.ok` is promise resolution, `.error e`
is rejection with an `Error` whose `message` is `e`.  Each tool handler
becomes a pure function from its (schema-parsed) arguments and oracle to
a trace recording the response returned to the client, the list of adb
argv vectors spawned, the temp paths released, and the cleanup outcome.
-/

namespace AdbMcp

/-! ## JavaScript string primitives -/

/-- The character class of JavaScript's `/\s/` (ECMAScript WhiteSpace and
LineTerminator), which is also exactly the set removed by
`String.prototype.trim`. -/
def jsWhitespace (c : Char) : Bool :=
  let n := c.toNat
  n = 0x20 || n = 0x9 || n = 0xa || n = 0xb || n = 0xc || n = 0xd ||
  n = 0xa0 || n = 0x1680 ||
  (0x2000 <= n && n <= 0x200a) ||
  n = 0x2028 || n = 0x2029 || n = 0x202f || n = 0x205f ||
  n = 0x3000 || n = 0xfeff

/-- `String.prototype.trim`: drop leading and trailing JavaScript
whitespace. -/
def jsTrimList (cs : List Char) : List Char :=
  ((cs.dropWhile jsWhitespace).reverse.dropWhile jsWhitespace).reverse

/-- `String.prototype.trim` on strings. -/
def jsTrim (s : String) : String :=
  String.mk (jsTrimList s.data)

/-- Does `hay` start with `needle`?  (Decidable, structural.) -/
def startsWithList : List Char → List Char → Bool
  | _, [] => true
  | [], _ :: _ => false
  | h :: hs, n :: ns => h = n && startsWithList hs ns

/-- `String.prototype.includes`: does `hay` contain `needle` as a
contiguous substring? -/
def listContains (hay needle : List Char) : Bool :=
  startsWithList hay needle ||
    match hay with
    | [] => false
    | _ :: t => listContains t needle

/-- `stdout.includes(marker)` on strings. -/
def containsSubstr (hay needle : String) : Bool :=
  listContains hay.data needle.data

/-- `text.replace(/^Error: /, "")`: remove one leading `"Error: "` if
present. -/
def stripErrorMarker (s : String) : String :=
  if startsWithList s.data ("Error: ".data) then
    String.mk (s.data.drop 7)
  else s

/-! ## The argument tokenizer (`splitCommandArguments`)

`src/index.ts` lines 289–338.  The loop state carries the emitted args,
the token under construction, the two quote flags and the pending-escape
flag; the loop body is translated clause for clause. -/

structure TokState where
  args : List String
  current : List Char
  inSingleQuote : Bool
  inDoubleQuote : Bool
  escapeNext : Bool
  deriving Repr, DecidableEq

def initTokState : TokState :=
  { args := [], current := [], inSingleQuote := false,
    inDoubleQuote := false, escapeNext := false }

/-- One iteration of the `for (const char of value)` loop of
`splitCommandArguments`. -/
def tokStep (s : TokState) (c : Char) : TokState :=
  if s.escapeNext then
    { s with current := s.current ++ [c], escapeNext := false }
  else if c = '\\' then
    { s with escapeNext := true }
  else if c = '\'' && !s.inDoubleQuote then
    { s with inSingleQuote := !s.inSingleQuote }
  else if c = '"' && !s.inSingleQuote then
    { s with inDoubleQuote := !s.inDoubleQuote }
  else if jsWhitespace c && !s.inSingleQuote && !s.inDoubleQuote then
    if s.current.length > 0 then
      { s with args := s.args ++ [String.mk s.current], current := [] }
    else s
  else
    { s with current := s.current ++ [c] }

/-- The epilogue after the loop: a dangling backslash is appended
literally, and a nonempty final token is pushed. -/
def finishTok (s : TokState) : List String :=
  let cur := if s.escapeNext then s.current ++ ['\\'] else s.current
  if cur.length > 0 then s.args ++ [String.mk cur] else s.args

/-- `splitCommandArguments(value)` from `src/index.ts`. -/
def splitCommandArguments (value : String) : List String :=
  finishTok (value.data.foldl tokStep initTokState)

/-! ## Subprocess results and the result classifier (`executeAdbCommand`)

`src/index.ts` lines 197–251.  A resolved `execFile` promise carries
`stdout` and `stderr`; a rejected one carries an error message.  The
response `isError := false` models the absence of the `isError` flag. -/

structure ExecResult where
  stdout : String
  stderr : String
  deriving Repr, DecidableEq

structure CommandResponse where
  text : String
  isError : Bool
  deriving Repr, DecidableEq

/-- The fixed allow-list `nonErrorWarnings` of `executeAdbCommand`. -/
def nonErrorWarnings : List String :=
  ["Warning: Activity not started, its current task has been brought to the front",
   "Warning: Activity not started, intent has been delivered to currently running top-most instance."]

/-- `executeAdbCommand(args, errorMessage)` from `src/index.ts`, as a
function of the outcome of `runAdb(args)`. -/
def executeAdbCommand (result : Except String ExecResult) (errorMessage : String) :
    CommandResponse :=
  match result with
  | .error errorMsg => ⟨errorMessage ++ ": " ++ errorMsg, true⟩
  | .ok r =>
    let stderrText := jsTrim r.stderr
    if stderrText ≠ "" ∧ ¬ containsSubstr r.stdout "List of devices attached" = true ∧
        ¬ containsSubstr r.stdout "Success" = true then
      if nonErrorWarnings.any (fun w => containsSubstr stderrText w) then
        ⟨stripErrorMarker stderrText, false⟩
      else
        ⟨"Error: " ++ stderrText, true⟩
    else
      ⟨if r.stdout = "" then "Command executed successfully" else r.stdout, false⟩

/-- The three-way classification policy in the words of the (amended)
specification: written independently of `executeAdbCommand`, in the
spec's branch order, to be compared with it.  Success first (trimmed
stderr empty or a positive stdout marker), then the benign allow-list on
the trimmed stderr, else failure carrying the trimmed stderr. -/
def classifySpec (stdout stderr : String) : CommandResponse :=
  let st := jsTrim stderr
  if st = "" || containsSubstr stdout "List of devices attached" ||
      containsSubstr stdout "Success" then
    ⟨if stdout = "" then "Command executed successfully" else stdout, false⟩
  else if nonErrorWarnings.any (fun w => containsSubstr st w) then
    ⟨stripErrorMarker st, false⟩
  else
    ⟨"Error: " ++ st, true⟩

/-! ## Temp file paths (`createTempFilePath`) and cleanup
(`cleanupTempFile`)

`src/index.ts` lines 260–277.  `Date.now()` is a millisecond timestamp,
modelled as a `Nat` parameter; the template literal renders it in
decimal. -/

/-- Decimal digit to character, for `0 ≤ d ≤ 9`. -/
def digitToChar (d : Nat) : Char := Char.ofNat (48 + d)

/-- Decimal rendering of a natural number, structurally recursive on a
fuel bound so that it reduces by evaluation.  `natToChars` always
supplies enough fuel. -/
def natToCharsAux : Nat → Nat → List Char
  | 0, _ => []
  | fuel + 1, n =>
      if n < 10 then [digitToChar n]
      else natToCharsAux fuel (n / 10) ++ [digitToChar (n % 10)]

/-- Decimal rendering of a natural number (as JavaScript's template
literal renders an integral number). -/
def natToChars (n : Nat) : List Char := natToCharsAux (n + 1) n

def natToString (n : Nat) : String := String.mk (natToChars n)

/-- Node's `path.basename` (POSIX): strip trailing separators, then take
the part after the last separator; an all-separator nonempty path gives
`"/"`. -/
def basename (s : String) : String :=
  let cs := s.data
  let trimmed := (cs.reverse.dropWhile (fun c => c = '/')).reverse
  if trimmed = [] then (if cs = [] then "" else "/")
  else String.mk ((trimmed.reverse.takeWhile (fun c => c ≠ '/')).reverse)

/-- Node's `path.join(tmpdir(), name)` for a normalized temp directory
with no trailing separator. -/
def joinPath (a b : String) : String := a ++ "/" ++ b

/-- `createTempFilePath(prefix, filename)` from `src/index.ts`:
`join(tmpdir(), `${prefix}-${Date.now()}-${basename(filename)}`)`, with
the temp directory and the clock reading as explicit parameters. -/
def createTempFilePath (tmpdir pfx filename : String) (now : Nat) : String :=
  joinPath tmpdir (pfx ++ "-" ++ natToString now ++ "-" ++ basename filename)

/-- Log levels of the server's logging utility. -/
inductive LogLevel where
  | ERROR | WARN | INFO | DEBUG
  deriving Repr, DecidableEq

/-- `cleanupTempFile(filePath)` from `src/index.ts`, as a function of the
outcome of `unlink(filePath)`: returns the outcome surfaced to the
caller together with the log entries emitted.  The `try/catch` turns
every unlink failure into a warning log. -/
def cleanupTempFile (filePath : String) (unlinkResult : Except String Unit) :
    Except String Unit × List (LogLevel × String) :=
  match unlinkResult with
  | .ok _ => (.ok (), [(LogLevel.DEBUG, "Cleaned up temp file: " ++ filePath)])
  | .error e =>
      (.ok (), [(LogLevel.WARN, "Failed to clean up temp file " ++ filePath ++ ": " ++ e)])

/-- `buildDeviceArgs(device)` from `src/index.ts`: the empty string is
falsy in JavaScript, so it yields no `-s` flag. -/
def buildDeviceArgs (device : Option String) : List String :=
  match device with
  | some d => if d = "" then [] else ["-s", d]
  | none => []

/-! ## Base64 encoding (`Buffer.toString('base64')`) -/

def base64Alphabet : List Char :=
  "ABCDEFGHIJKLMNOPQRSTUVWXYZabcdefghijklmnopqrstuvwxyz0123456789+/".data

def b64char (n : Nat) : Char := base64Alphabet.getD n 'A'

/-- Standard base64 with padding, over a byte list. -/
def base64encode : List Nat → List Char
  | [] => []
  | [a] => [b64char (a / 4), b64char (a % 4 * 16), '=', '=']
  | [a, b] => [b64char (a / 4), b64char (a % 4 * 16 + b / 16), b64char (b % 16 * 4), '=']
  | a :: b :: c :: rest =>
      [b64char (a / 4), b64char (a % 4 * 16 + b / 16),
       b64char (b % 16 * 4 + c / 64), b64char (c % 64)] ++ base64encode rest

def base64encodeStr (bytes : List Nat) : String := String.mk (base64encode bytes)

/-! ## Logcat line handling

`stdout.split(/\r?\n/)`, `slice(-lines)` and `join("\n")` from the
`adb_logcat` handler, `src/index.ts` lines 536–557. -/

/-- `split(/\r?\n/)`: a `"\r\n"` pair or a lone `"\n"` ends a line; a
lone `"\r"` does not. -/
def splitLinesAux : List Char → List Char → List String
  | [], acc => [String.mk acc.reverse]
  | '\r' :: '\n' :: rest, acc => String.mk acc.reverse :: splitLinesAux rest []
  | '\n' :: rest, acc => String.mk acc.reverse :: splitLinesAux rest []
  | c :: rest, acc => splitLinesAux rest (c :: acc)

def splitLines (s : String) : List String := splitLinesAux s.data []

/-- `xs.slice(-n)` for `n > 0`: the last at most `n` elements. -/
def takeLast (n : Nat) (xs : List String) : List String :=
  xs.drop (xs.length - n)

/-- `xs.join("\n")`. -/
def joinNL : List String → String
  | [] => ""
  | [x] => x
  | x :: xs => x ++ "\n" ++ joinNL xs

/-! ## Tool handlers

Each handler is a pure function of its schema-parsed arguments and an
oracle giving the outcome of each asynchronous call it may perform.  The
trace records the response, the adb argv vectors actually spawned and
(for temp-file handlers) the temp paths released and the cleanup logs.
`parse…Args` functions apply the zod defaults of `src/types.ts`. -/

structure HandlerTrace where
  response : CommandResponse
  spawned : List (List String)
  deriving Repr, DecidableEq

structure TempHandlerTrace where
  response : CommandResponse
  spawned : List (List String)
  released : List String
  cleanupLogs : List (LogLevel × String)
  deriving Repr, DecidableEq

/-- Arguments of `adb_shell` (`AdbShellSchema`). -/
structure ShellArgs where
  command : String
  device : Option String
  deriving Repr, DecidableEq

/-- The `adb_shell` handler, `src/index.ts` lines 478–498. -/
def adbShellHandler (args : ShellArgs) (shellResult : Except String ExecResult) :
    HandlerTrace :=
  let deviceArgs := buildDeviceArgs args.device
  let trimmedCommand := jsTrim args.command
  if trimmedCommand = "" then
    ⟨⟨"Shell command must not be empty", true⟩, []⟩
  else
    ⟨executeAdbCommand shellResult "Error executing shell command",
     [deviceArgs ++ ["shell", trimmedCommand]]⟩

/-- Arguments of `adb_install` (`AdbInstallSchema`). -/
structure InstallArgs where
  apkPath : String
  device : Option String
  deriving Repr, DecidableEq

/-- The `adb_install` handler, `src/index.ts` lines 501–530.  An empty
trimmed path throws inside the `try`, producing the catch response. -/
def adbInstallHandler (args : InstallArgs) (installResult : Except String ExecResult) :
    HandlerTrace :=
  let deviceArgs := buildDeviceArgs args.device
  let apkPath := jsTrim args.apkPath
  if apkPath = "" then
    ⟨⟨"Error installing APK: APK path must not be empty", true⟩, []⟩
  else
    ⟨executeAdbCommand installResult "Error installing APK",
     [deviceArgs ++ ["install", "-r", apkPath]]⟩

/-- Arguments of `adb_activity_manager` (`AdbActivityManagerSchema`). -/
structure AmArgs where
  amCommand : String
  amArgs : Option String
  device : Option String
  deriving Repr, DecidableEq

/-- The `adb_activity_manager` handler, `src/index.ts` lines 724–744. -/
def adbActivityManagerHandler (args : AmArgs) (amResult : Except String ExecResult) :
    HandlerTrace :=
  let deviceArgs := buildDeviceArgs args.device
  let amCommand := jsTrim args.amCommand
  if amCommand = "" then
    ⟨⟨"Activity Manager command must not be empty", true⟩, []⟩
  else
    let additionalArgs :=
      match args.amArgs with
      | some s => if s = "" then [] else splitCommandArguments s
      | none => []
    ⟨executeAdbCommand amResult "Error executing Activity Manager command",
     [deviceArgs ++ ["shell", "am", amCommand] ++ additionalArgs]⟩

/-- Arguments of `adb_package_manager` (`AdbPackageManagerSchema`). -/
structure PmArgs where
  pmCommand : String
  pmArgs : Option String
  device : Option String
  deriving Repr, DecidableEq

/-- The `adb_package_manager` handler, `src/index.ts` lines 753–773. -/
def adbPackageManagerHandler (args : PmArgs) (pmResult : Except String ExecResult) :
    HandlerTrace :=
  let deviceArgs := buildDeviceArgs args.device
  let pmCommand := jsTrim args.pmCommand
  if pmCommand = "" then
    ⟨⟨"Package Manager command must not be empty", true⟩, []⟩
  else
    let additionalArgs :=
      match args.pmArgs with
      | some s => if s = "" then [] else splitCommandArguments s
      | none => []
    ⟨executeAdbCommand pmResult "Error executing Package Manager command",
     [deviceArgs ++ ["shell", "pm", pmCommand] ++ additionalArgs]⟩

/-- Arguments of `adb_logcat` after zod parsing (`AdbLogcatSchema`);
`lines` defaults to 50. -/
structure LogcatArgs where
  filter : Option String
  device : Option String
  lines : Int
  deriving Repr, DecidableEq

def parseLogcatArgs (filter device : Option String) (lines : Option Int) : LogcatArgs :=
  ⟨filter, device, lines.getD 50⟩

/-- The `adb_logcat` handler, `src/index.ts` lines 533–568.
`args.lines || 50` maps the (falsy) value 0 back to 50. -/
def adbLogcatHandler (args : LogcatArgs) (logcatResult : Except String ExecResult) :
    HandlerTrace :=
  let lines : Int := if args.lines = 0 then 50 else args.lines
  let filterExpr := match args.filter with | some s => s | none => ""
  let deviceArgs := buildDeviceArgs args.device
  let filterArgs := if filterExpr = "" then [] else splitCommandArguments filterExpr
  let adbArgs := deviceArgs ++ ["logcat", "-d"] ++ filterArgs
  match logcatResult with
  | .error e => ⟨⟨"Error reading logcat: " ++ e, true⟩, [adbArgs]⟩
  | .ok r =>
    let logLines := splitLines r.stdout
    let limitedLines := if lines > 0 then takeLast lines.toNat logLines else logLines
    ⟨⟨joinNL limitedLines, false⟩, [adbArgs]⟩

/-- Arguments of `adb_pull` after zod parsing (`AdbPullSchema`);
`asBase64` defaults to `true`. -/
structure PullArgs where
  remotePath : String
  device : Option String
  asBase64 : Bool
  deriving Repr, DecidableEq

def parsePullArgs (remotePath : String) (device : Option String)
    (asBase64 : Option Bool) : PullArgs :=
  ⟨remotePath, device, asBase64.getD true⟩

/-- Oracle for `adb_pull`: the outcome of `adb pull` and of reading the
pulled temp file. -/
structure PullOracle where
  pullResult : Except String ExecResult
  readResult : Except String (List Nat)
  deriving Repr

/-- The `try`/`catch` body of the `adb_pull` handler, `src/index.ts`
lines 580–614: response plus the argv vectors spawned. -/
def adbPullHandlerBody (args : PullArgs) (o : PullOracle) (tempFilePath : String) :
    CommandResponse × List (List String) :=
  let deviceArgs := buildDeviceArgs args.device
  let remotePath := jsTrim args.remotePath
  if remotePath = "" then
    (⟨"Error pulling file: Remote path must not be empty", true⟩, [])
  else
    let argv := deviceArgs ++ ["pull", remotePath, tempFilePath]
    match o.pullResult with
    | .error e => (⟨"Error pulling file: " ++ e, true⟩, [argv])
    | .ok r =>
      if args.asBase64 then
        match o.readResult with
        | .error e => (⟨"Error pulling file: " ++ e, true⟩, [argv])
        | .ok fileData => (⟨base64encodeStr fileData, false⟩, [argv])
      else
        (⟨r.stdout, false⟩, [argv])

/-- The `adb_pull` handler, `src/index.ts` lines 571–621: allocates the
temp path, runs the body, and the `finally` block always releases the
temp path. -/
def adbPullHandler (tmpdir : String) (now : Nat) (args : PullArgs) (o : PullOracle)
    (unlinkResult : Except String Unit) : TempHandlerTrace :=
  let tempFilePath := createTempFilePath tmpdir "adb-mcp" (basename args.remotePath) now
  let body := adbPullHandlerBody args o tempFilePath
  let cleanup := cleanupTempFile tempFilePath unlinkResult
  ⟨body.1, body.2, [tempFilePath], cleanup.2⟩

/-- Arguments of `adb_push` (`AdbPushSchema`). -/
structure PushArgs where
  fileBase64 : String
  remotePath : String
  device : Option String
  deriving Repr, DecidableEq

/-- Oracle for `adb_push`: the outcome of writing the decoded payload to
the temp file and of `adb push`. -/
structure PushOracle where
  writeResult : Except String Unit
  pushResult : Except String ExecResult
  deriving Repr

/-- The `try`/`catch` body of the `adb_push` handler, `src/index.ts`
lines 633–656: the temp file is written before the remote path is
validated. -/
def adbPushHandlerBody (args : PushArgs) (o : PushOracle) (tempFilePath : String) :
    CommandResponse × List (List String) :=
  let deviceArgs := buildDeviceArgs args.device
  match o.writeResult with
  | .error e => (⟨"Error pushing file: " ++ e, true⟩, [])
  | .ok _ =>
    let remotePath := jsTrim args.remotePath
    if remotePath = "" then
      (⟨"Error pushing file: Remote path must not be empty", true⟩, [])
    else
      (executeAdbCommand o.pushResult "Error pushing file",
       [deviceArgs ++ ["push", tempFilePath, remotePath]])

/-- The `adb_push` handler, `src/index.ts` lines 624–663, with its
`finally` release. -/
def adbPushHandler (tmpdir : String) (now : Nat) (args : PushArgs) (o : PushOracle)
    (unlinkResult : Except String Unit) : TempHandlerTrace :=
  let tempFilePath := createTempFilePath tmpdir "adb-mcp" (basename args.remotePath) now
  let body := adbPushHandlerBody args o tempFilePath
  let cleanup := cleanupTempFile tempFilePath unlinkResult
  ⟨body.1, body.2, [tempFilePath], cleanup.2⟩

/-- Arguments of `dump_image` after zod parsing (`AdbScreenshotSchema`);
`asBase64` defaults to `false`. -/
structure ScreenshotArgs where
  device : Option String
  asBase64 : Bool
  deriving Repr, DecidableEq

def parseScreenshotArgs (device : Option String) (asBase64 : Option Bool) :
    ScreenshotArgs :=
  ⟨device, asBase64.getD false⟩

/-- Oracle for `dump_image`: the outcomes of `screencap`, `pull`,
remote `rm` and of reading the pulled temp file. -/
structure ScreenshotOracle where
  screencapResult : Except String ExecResult
  pullResult : Except String ExecResult
  rmResult : Except String ExecResult
  readResult : Except String (List Nat)
  deriving Repr

/-- The `try`/`catch` body of the `dump_image` handler, `src/index.ts`
lines 676–708. -/
def dumpImageHandlerBody (args : ScreenshotArgs) (o : ScreenshotOracle)
    (tempFilePath : String) : CommandResponse × List (List String) :=
  let deviceArgs := buildDeviceArgs args.device
  let remotePath := "/sdcard/screenshot.png"
  let a1 := deviceArgs ++ ["shell", "screencap", "-p", remotePath]
  let a2 := deviceArgs ++ ["pull", remotePath, tempFilePath]
  let a3 := deviceArgs ++ ["shell", "rm", remotePath]
  match o.screencapResult with
  | .error e => (⟨"Error taking screenshot: " ++ e, true⟩, [a1])
  | .ok _ =>
  match o.pullResult with
  | .error e => (⟨"Error taking screenshot: " ++ e, true⟩, [a1, a2])
  | .ok _ =>
  match o.rmResult with
  | .error e => (⟨"Error taking screenshot: " ++ e, true⟩, [a1, a2, a3])
  | .ok _ =>
  match o.readResult with
  | .error e => (⟨"Error taking screenshot: " ++ e, true⟩, [a1, a2, a3])
  | .ok imageData =>
    if args.asBase64 then
      (⟨base64encodeStr imageData, false⟩, [a1, a2, a3])
    else
      (⟨"Screenshot captured successfully", false⟩, [a1, a2, a3])

/-- The `dump_image` handler, `src/index.ts` lines 666–715, with its
`finally` release. -/
def dumpImageHandler (tmpdir : String) (now : Nat) (args : ScreenshotArgs)
    (o : ScreenshotOracle) (unlinkResult : Except String Unit) : TempHandlerTrace :=
  let tempFilePath := createTempFilePath tmpdir "adb-mcp" "screenshot.png" now
  let body := dumpImageHandlerBody args o tempFilePath
  let cleanup := cleanupTempFile tempFilePath unlinkResult
  ⟨body.1, body.2, [tempFilePath], cleanup.2⟩

/-- Arguments of `inspect_ui` after zod parsing (`AdbUidumpSchema`);
`asBase64` defaults to `false`. -/
structure UidumpArgs where
  device : Option String
  outputPath : Option String
  asBase64 : Bool
  deriving Repr, DecidableEq

def parseUidumpArgs (device outputPath : Option String) (asBase64 : Option Bool) :
    UidumpArgs :=
  ⟨device, outputPath, asBase64.getD false⟩

/-- Oracle for `inspect_ui`: `uiautomator dump`, `pull`, remote `rm`,
and the two possible reads of the temp file (raw bytes for the base64
branch, utf-8 text for the plain branch). -/
structure UidumpOracle where
  dumpResult : Except String ExecResult
  pullResult : Except String ExecResult
  rmResult : Except String ExecResult
  readBytesResult : Except String (List Nat)
  readTextResult : Except String String
  deriving Repr

/-- The `try`/`catch` body of the `inspect_ui` handler, `src/index.ts`
lines 433–468.  `args.asBase64 !== false` selects the base64 branch. -/
def inspectUiHandlerBody (args : UidumpArgs) (o : UidumpOracle)
    (tempFilePath : String) : CommandResponse × List (List String) :=
  let deviceArgs := buildDeviceArgs args.device
  let remotePath :=
    match args.outputPath with
    | some p => if jsTrim p = "" then "/sdcard/window_dump.xml" else jsTrim p
    | none => "/sdcard/window_dump.xml"
  let a1 := deviceArgs ++ ["shell", "uiautomator", "dump", remotePath]
  let a2 := deviceArgs ++ ["pull", remotePath, tempFilePath]
  let a3 := deviceArgs ++ ["shell", "rm", remotePath]
  match o.dumpResult with
  | .error e => (⟨"Error dumping UI hierarchy: " ++ e, true⟩, [a1])
  | .ok _ =>
  match o.pullResult with
  | .error e => (⟨"Error dumping UI hierarchy: " ++ e, true⟩, [a1, a2])
  | .ok _ =>
  match o.rmResult with
  | .error e => (⟨"Error dumping UI hierarchy: " ++ e, true⟩, [a1, a2, a3])
  | .ok _ =>
  if args.asBase64 then
    match o.readBytesResult with
    | .error e => (⟨"Error dumping UI hierarchy: " ++ e, true⟩, [a1, a2, a3])
    | .ok xmlData => (⟨base64encodeStr xmlData, false⟩, [a1, a2, a3])
  else
    match o.readTextResult with
    | .error e => (⟨"Error dumping UI hierarchy: " ++ e, true⟩, [a1, a2, a3])
    | .ok xmlData => (⟨xmlData, false⟩, [a1, a2, a3])

/-- The `inspect_ui` handler, `src/index.ts` lines 421–475, with its
`finally` release. -/
def inspectUiHandler (tmpdir : String) (now : Nat) (args : UidumpArgs)
    (o : UidumpOracle) (unlinkResult : Except String Unit) : TempHandlerTrace :=
  let tempFilePath := createTempFilePath tmpdir "adb-mcp" "window_dump.xml" now
  let body := inspectUiHandlerBody args o tempFilePath
  let cleanup := cleanupTempFile tempFilePath unlinkResult
  ⟨body.1, body.2, [tempFilePath], cleanup.2⟩

/-! ## Helper lemmas -/

theorem str_data_append (a b : String) : (a ++ b).data = a.data ++ b.data := rfl

theorem data_ne_nil_of_ne_empty {m : String} (hm : m ≠ "") : m.data ≠ [] := by
  intro h
  apply hm
  cases m with
  | mk data => cases h; rfl

/-- Inside single quotes, with no escape pending, every character other
than a backslash and a single quote is appended literally and the state
flags are unchanged. -/
theorem foldl_tokStep_singleQuoted (cs : List Char) :
    ∀ st : TokState, st.inSingleQuote = true → st.escapeNext = false →
      (∀ c ∈ cs, c ≠ '\\' ∧ c ≠ '\'') →
      cs.foldl tokStep st = { st with current := st.current ++ cs } := by
  induction cs with
  | nil => intro st _ _ _; simp
  | cons c cs ih =>
    intro st h1 h3 hall
    have hc := hall c (List.mem_cons_self c cs)
    have hstep : tokStep st c = { st with current := st.current ++ [c] } := by
      unfold tokStep
      simp [h1, h3, hc.1, hc.2]
    rw [List.foldl_cons, hstep,
      ih { st with current := st.current ++ [c] } h1 h3
        (fun x hx => hall x (List.mem_cons_of_mem c hx))]
    simp

/-! ## Claim theorems -/

/-- C3: tokenizer test vectors.  `tokenize("a 'b c' d") = ["a","b c","d"]`,
`tokenize("a \"b\\\"c\" d") = ["a","b\"c","d"]`, `tokenize("") = []`, and
an input whose character loop ends with a pending escape (an unmatched
trailing backslash) has that backslash appended literally to the final
token, which is then emitted. -/
theorem tokenizer_test_vectors :
    splitCommandArguments "a 'b c' d" = ["a", "b c", "d"] ∧
    splitCommandArguments "a \"b\\\"c\" d" = ["a", "b\"c", "d"] ∧
    splitCommandArguments "" = [] ∧
    ∀ s : String, (s.data.foldl tokStep initTokState).escapeNext = true →
      splitCommandArguments s =
        (s.data.foldl tokStep initTokState).args ++
          [String.mk ((s.data.foldl tokStep initTokState).current ++ ['\\'])] := by
  refine ⟨by decide, by decide, by decide, ?_⟩
  intro s h
  unfold splitCommandArguments finishTok
  simp [h]

/-- Witness for C3's universally quantified part at the concrete input
`"ab\\"`. -/
theorem tokenizer_test_vectors_witness :
    ("ab\\".data.foldl tokStep initTokState).escapeNext = true ∧
    splitCommandArguments "ab\\" =
      ("ab\\".data.foldl tokStep initTokState).args ++
        [String.mk (("ab\\".data.foldl tokStep initTokState).current ++ ['\\'])] :=
  ⟨by decide, tokenizer_test_vectors.2.2.2 "ab\\" (by decide)⟩

/-- C1 counterexample: inside single quotes a backslash is *not* copied
literally — the tokenizer's escape clause runs before its quote clauses,
so `'a\b'` tokenizes to `["ab"]`, not `["a\b"]`. -/
theorem singleQuote_counterexample :
    splitCommandArguments "'a\\b'" = ["ab"] ∧ ("ab" : String) ≠ "a\\b" := by
  refine ⟨by decide, by decide⟩

/-- C1 amended: between an opening and its closing single quote, every
character other than a backslash — including double quotes and
whitespace — is copied literally into the current token; the backslash
is the one exception, still acting as an escape (it is consumed and sets
the escape flag even inside single quotes). -/
theorem singleQuote_literal_amended :
    (∀ m : String, m ≠ "" → (∀ c ∈ m.data, c ≠ '\\' ∧ c ≠ '\'') →
        splitCommandArguments ("'" ++ m ++ "'") = [m]) ∧
    (∀ st : TokState, st.escapeNext = false →
        tokStep st '\\' = { st with escapeNext := true }) := by
  constructor
  · intro m hm hall
    have hdata : ("'" ++ m ++ "'").data = '\'' :: (m.data ++ ['\'']) := by
      simp [str_data_append]
    unfold splitCommandArguments
    rw [hdata, List.foldl_cons]
    have hopen : tokStep initTokState '\'' = ⟨[], [], true, false, false⟩ := by decide
    rw [hopen, List.foldl_append,
      foldl_tokStep_singleQuoted m.data ⟨[], [], true, false, false⟩ rfl rfl hall]
    show finishTok (List.foldl tokStep ⟨[], [] ++ m.data, true, false, false⟩ ['\'']) = [m]
    have d1 : ('\'' : Char) ≠ '\\' := by decide
    have hclose : List.foldl tokStep ⟨[], [] ++ m.data, true, false, false⟩ ['\''] =
        ⟨[], m.data, false, false, false⟩ := by
      simp [tokStep, d1]
    rw [hclose]
    cases m with
    | mk data =>
      have hne : data ≠ [] := data_ne_nil_of_ne_empty hm
      unfold finishTok
      simp [List.length_pos, hne]
  · intro st h
    unfold tokStep
    simp [h]

/-- Witness for C1's amended theorem at the concrete middle `"b c\"d"`
(containing whitespace and a double quote). -/
theorem singleQuote_literal_amended_witness :
    ("b c\"d" : String) ≠ "" ∧
    splitCommandArguments "'b c\"d'" = ["b c\"d"] :=
  ⟨by decide,
   singleQuote_literal_amended.1 "b c\"d" (by decide) (by decide)⟩

/-- The nested-condition classifier of `executeAdbCommand` agrees with
the three-branch presentation `classifySpec` on every resolved result. -/
theorem executeAdbCommand_ok_eq_classifySpec (stdout stderr errMsg : String) :
    executeAdbCommand (.ok ⟨stdout, stderr⟩) errMsg = classifySpec stdout stderr := by
  unfold executeAdbCommand classifySpec
  by_cases h1 : jsTrim stderr = "" <;>
    by_cases h2 : containsSubstr stdout "List of devices attached" = true <;>
      by_cases h3 : containsSubstr stdout "Success" = true <;>
        simp [h1, h2, h3]

/-- C2 counterexample: the classifier does not act on the raw stderr.
With `stdout = "x"` and the whitespace-only `stderr = " "`, the claim's
policy puts the result in the Failure branch (`"Error: "` plus the
original stderr, error flag set), but the code trims first and returns
Success; and with both streams empty the Success text is the fixed
placeholder, not the (empty) stdout. -/
theorem classifier_counterexample :
    executeAdbCommand (.ok ⟨"x", " "⟩) "E" = ⟨"x", false⟩ ∧
    executeAdbCommand (.ok ⟨"x", " "⟩) "E" ≠ ⟨"Error:  ", true⟩ ∧
    executeAdbCommand (.ok ⟨"", ""⟩) "E" = ⟨"Command executed successfully", false⟩ := by
  refine ⟨by decide, by decide, by decide⟩

/-- C2 amended: the three-way policy holds with the *trimmed* stderr in
place of the raw stderr throughout (empty test, allow-list test, and the
Failure text `"Error: " ++ trimmed stderr`), and with the Success
response carrying stdout except that an empty stdout is replaced by the
fixed text `"Command executed successfully"` — exactly `classifySpec`. -/
theorem classifier_three_way_amended :
    ∀ stdout stderr errMsg : String,
      executeAdbCommand (.ok ⟨stdout, stderr⟩) errMsg = classifySpec stdout stderr :=
  executeAdbCommand_ok_eq_classifySpec

theorem dropWhile_idem (p : α → Bool) (l : List α) :
    (l.dropWhile p).dropWhile p = l.dropWhile p := by
  cases h : l.dropWhile p with
  | nil => simp
  | cons a t =>
    have hw : l.dropWhile p ≠ [] := by simp [h]
    have ha : p a = false := by
      have := List.head_dropWhile_not p l hw
      simpa [h] using this
    simp [List.dropWhile_cons, ha]

theorem dropWhile_of_head_false {p : α → Bool} {l : List α}
    (h : ∀ (a : α) (t : List α), l = a :: t → p a = false) :
    l.dropWhile p = l := by
  cases l with
  | nil => rfl
  | cons a t => simp [List.dropWhile_cons, h a t rfl]

/-- Right-trimming preserves a head on which `p` fails. -/
theorem head_false_of_trimRight {p : α → Bool} {l : List α}
    (hl : ∀ a t, l = a :: t → p a = false) :
    ∀ b u, (l.reverse.dropWhile p).reverse = b :: u → p b = false := by
  intro b u h
  have hpre : (l.reverse.dropWhile p).reverse <+: l := by
    have := List.reverse_prefix.mpr (List.dropWhile_suffix (l := l.reverse) p)
    simpa using this
  obtain ⟨s, hs⟩ := hpre
  rw [h] at hs
  cases l with
  | nil => simp at hs
  | cons a t =>
    injection hs with h1 _
    exact h1 ▸ hl a t rfl

theorem jsTrimList_idem (cs : List Char) : jsTrimList (jsTrimList cs) = jsTrimList cs := by
  unfold jsTrimList
  have h1 : ∀ a t, cs.dropWhile jsWhitespace = a :: t → jsWhitespace a = false := by
    intro a t h
    have hw : cs.dropWhile jsWhitespace ≠ [] := by simp [h]
    have := List.head_dropWhile_not jsWhitespace cs hw
    simpa [h] using this
  have h2 := head_false_of_trimRight (l := cs.dropWhile jsWhitespace) h1
  rw [dropWhile_of_head_false h2, List.reverse_reverse, dropWhile_idem]

theorem jsTrim_idem (s : String) : jsTrim (jsTrim s) = jsTrim s :=
  congrArg String.mk (jsTrimList_idem s.data)

/-- C10: `executeAdbCommand` trims stderr before classifying.  A stderr
of whitespace characters only is classified as Success (stdout returned,
with the fixed placeholder when stdout is empty, and no error flag), and
the whole classification — allow-list and failure branches included —
depends only on the trimmed stderr. -/
theorem stderr_trimmed_before_classification :
    ∀ stdout stderr errMsg : String,
      ((∀ c ∈ stderr.data, jsWhitespace c = true) →
        executeAdbCommand (.ok ⟨stdout, stderr⟩) errMsg =
          ⟨if stdout = "" then "Command executed successfully" else stdout, false⟩) ∧
      executeAdbCommand (.ok ⟨stdout, stderr⟩) errMsg =
        executeAdbCommand (.ok ⟨stdout, jsTrim stderr⟩) errMsg := by
  intro stdout stderr errMsg
  constructor
  · intro hws
    have hdrop : stderr.data.dropWhile jsWhitespace = [] :=
      List.dropWhile_eq_nil_iff.mpr hws
    have hnil : jsTrim stderr = "" := by
      unfold jsTrim jsTrimList
      rw [hdrop]
      rfl
    rw [executeAdbCommand_ok_eq_classifySpec]
    unfold classifySpec
    simp [hnil]
  · rw [executeAdbCommand_ok_eq_classifySpec, executeAdbCommand_ok_eq_classifySpec]
    unfold classifySpec
    rw [jsTrim_idem]

/-- Witness for C10 at `stderr = " \t"`, `stdout = "ok"`. -/
theorem stderr_trimmed_before_classification_witness :
    (∀ c ∈ (" \t" : String).data, jsWhitespace c = true) ∧
    executeAdbCommand (.ok ⟨"ok", " \t"⟩) "E" = ⟨"ok", false⟩ :=
  ⟨by decide,
   ((stderr_trimmed_before_classification "ok" " \t" "E").1 (by decide)).trans (by decide)⟩

/-! ### Decimal rendering is injective -/

theorem digitToChar_toNat : ∀ d < 10, (digitToChar d).toNat = 48 + d := by decide

/-- Reading a decimal character list back into a number. -/
def charsVal (cs : List Char) : Nat :=
  cs.foldl (fun a c => a * 10 + (c.toNat - 48)) 0

theorem charsVal_append_digit (cs : List Char) (c : Char) :
    charsVal (cs ++ [c]) = charsVal cs * 10 + (c.toNat - 48) := by
  unfold charsVal
  rw [List.foldl_append]
  rfl

theorem charsVal_natToCharsAux :
    ∀ fuel n : Nat, n < fuel → charsVal (natToCharsAux fuel n) = n := by
  intro fuel
  induction fuel with
  | zero => intro n h; omega
  | succ fuel ih =>
    intro n h
    unfold natToCharsAux
    split
    · rename_i h10
      have hd := digitToChar_toNat n h10
      simp [charsVal, hd]
    · rename_i h10
      have hdiv : n / 10 < n := Nat.div_lt_self (by omega) (by omega)
      rw [charsVal_append_digit, ih (n / 10) (by omega),
        digitToChar_toNat (n % 10) (Nat.mod_lt n (by omega))]
      omega

theorem charsVal_natToChars (n : Nat) : charsVal (natToChars n) = n :=
  charsVal_natToCharsAux (n + 1) n (Nat.lt_succ_self n)

theorem natToChars_injective {a b : Nat} (h : natToChars a = natToChars b) : a = b := by
  have ha := charsVal_natToChars a
  rw [h, charsVal_natToChars] at ha
  omega

/-- C4 counterexample: `createTempFilePath` depends only on the prefix,
the millisecond clock reading and the base name, so two allocations with
the same prefix and suggested filename made during the same millisecond
(possible under concurrent invocations, since `Date.now()` has
millisecond resolution) return the *same* path, not distinct ones. -/
theorem tempPath_counterexample :
    createTempFilePath "/tmp" "adb-mcp" "file.txt" 1000 =
      createTempFilePath "/tmp" "adb-mcp" "file.txt" 1000 ∧
    createTempFilePath "/tmp" "adb-mcp" "file.txt" 1000 = "/tmp/adb-mcp-1000-file.txt" := by
  refine ⟨rfl, by decide⟩

/-- C4 amended: two allocations with the same prefix and the same
suggested filename return distinct paths whenever they observe distinct
millisecond clock values; allocations within the same millisecond
collide. -/
theorem tempPath_distinct_amended :
    ∀ (tmpdir pfx filename : String) (t1 t2 : Nat), t1 ≠ t2 →
      createTempFilePath tmpdir pfx filename t1 ≠ createTempFilePath tmpdir pfx filename t2 := by
  intro tmpdir pfx filename t1 t2 hne heq
  apply hne
  apply natToChars_injective
  have hd := congrArg String.data heq
  simp only [createTempFilePath, joinPath, natToString, str_data_append,
    List.append_assoc] at hd
  have h1 := List.append_cancel_left hd
  have h2 := List.append_cancel_left h1
  have h3 := List.append_cancel_left h2
  have h4 := List.append_cancel_left h3
  exact List.append_cancel_right h4

/-- Witness for C4's amended theorem at clock values 1000 and 1001. -/
theorem tempPath_distinct_amended_witness :
    (1000 : Nat) ≠ 1001 ∧
    createTempFilePath "/tmp" "adb-mcp" "file.txt" 1000 ≠
      createTempFilePath "/tmp" "adb-mcp" "file.txt" 1001 :=
  ⟨by decide, tempPath_distinct_amended "/tmp" "adb-mcp" "file.txt" 1000 1001 (by decide)⟩

/-- C5: each handler with a required string parameter rejects an
empty-after-trim value with an error-flagged descriptive response and
spawns no adb subprocess (`spawned = []`), whatever the oracle would
have answered.  In particular `adb_pull` with an empty remote path is
rejected before any subprocess is spawned. -/
theorem validation_before_subprocess :
    (∀ (cmd : String) (dev : Option String) (r : Except String ExecResult),
        jsTrim cmd = "" →
        adbShellHandler ⟨cmd, dev⟩ r =
          ⟨⟨"Shell command must not be empty", true⟩, []⟩) ∧
    (∀ (apk : String) (dev : Option String) (r : Except String ExecResult),
        jsTrim apk = "" →
        adbInstallHandler ⟨apk, dev⟩ r =
          ⟨⟨"Error installing APK: APK path must not be empty", true⟩, []⟩) ∧
    (∀ (tmpdir : String) (now : Nat) (rp : String) (dev : Option String)
        (ab : Option Bool) (o : PullOracle) (u : Except String Unit),
        jsTrim rp = "" →
        (adbPullHandler tmpdir now (parsePullArgs rp dev ab) o u).response =
            ⟨"Error pulling file: Remote path must not be empty", true⟩ ∧
          (adbPullHandler tmpdir now (parsePullArgs rp dev ab) o u).spawned = []) ∧
    (∀ (tmpdir : String) (now : Nat) (fb rp : String) (dev : Option String)
        (o : PushOracle) (u : Except String Unit),
        jsTrim rp = "" →
        (adbPushHandler tmpdir now ⟨fb, rp, dev⟩ o u).response.isError = true ∧
          (adbPushHandler tmpdir now ⟨fb, rp, dev⟩ o u).spawned = []) ∧
    (∀ (amc : String) (ama dev : Option String) (r : Except String ExecResult),
        jsTrim amc = "" →
        adbActivityManagerHandler ⟨amc, ama, dev⟩ r =
          ⟨⟨"Activity Manager command must not be empty", true⟩, []⟩) ∧
    (∀ (pmc : String) (pma dev : Option String) (r : Except String ExecResult),
        jsTrim pmc = "" →
        adbPackageManagerHandler ⟨pmc, pma, dev⟩ r =
          ⟨⟨"Package Manager command must not be empty", true⟩, []⟩) := by
  refine ⟨?_, ?_, ?_, ?_, ?_, ?_⟩
  · intro cmd dev r h
    simp [adbShellHandler, h]
  · intro apk dev r h
    simp [adbInstallHandler, h]
  · intro tmpdir now rp dev ab o u h
    simp [adbPullHandler, adbPullHandlerBody, parsePullArgs, h]
  · intro tmpdir now fb rp dev o u h
    cases hw : o.writeResult with
    | ok v => simp [adbPushHandler, adbPushHandlerBody, h, hw]
    | error e => simp [adbPushHandler, adbPushHandlerBody, h, hw]
  · intro amc ama dev r h
    simp [adbActivityManagerHandler, h]
  · intro pmc pma dev r h
    simp [adbPackageManagerHandler, h]

/-- Witness for C5 at the whitespace-only parameter `" "`. -/
theorem validation_before_subprocess_witness :
    jsTrim " " = "" ∧
    adbShellHandler ⟨" ", none⟩ (.ok ⟨"", ""⟩) =
      ⟨⟨"Shell command must not be empty", true⟩, []⟩ ∧
    (adbPullHandler "/tmp" 7 (parsePullArgs " " none none)
        ⟨.ok ⟨"", ""⟩, .ok []⟩ (.ok ())).response =
      ⟨"Error pulling file: Remote path must not be empty", true⟩ ∧
    (adbPullHandler "/tmp" 7 (parsePullArgs " " none none)
        ⟨.ok ⟨"", ""⟩, .ok []⟩ (.ok ())).spawned = [] := by
  have h := validation_before_subprocess
  exact ⟨by decide, h.1 " " none (.ok ⟨"", ""⟩) (by decide),
    (h.2.2.1 "/tmp" 7 " " none none ⟨.ok ⟨"", ""⟩, .ok []⟩ (.ok ()) (by decide)).1,
    (h.2.2.1 "/tmp" 7 " " none none ⟨.ok ⟨"", ""⟩, .ok []⟩ (.ok ()) (by decide)).2⟩

/-- C6: every temp-file handler passes its allocated temp path to the
release routine on every exit path — for all arguments and all oracle
outcomes (success, benign, or error), `released` is exactly the
allocated path. -/
theorem temp_release_on_all_paths :
    ∀ (tmpdir : String) (now : Nat) (u : Except String Unit),
      (∀ (args : PullArgs) (o : PullOracle),
          (adbPullHandler tmpdir now args o u).released =
            [createTempFilePath tmpdir "adb-mcp" (basename args.remotePath) now]) ∧
      (∀ (args : PushArgs) (o : PushOracle),
          (adbPushHandler tmpdir now args o u).released =
            [createTempFilePath tmpdir "adb-mcp" (basename args.remotePath) now]) ∧
      (∀ (args : ScreenshotArgs) (o : ScreenshotOracle),
          (dumpImageHandler tmpdir now args o u).released =
            [createTempFilePath tmpdir "adb-mcp" "screenshot.png" now]) ∧
      (∀ (args : UidumpArgs) (o : UidumpOracle),
          (inspectUiHandler tmpdir now args o u).released =
            [createTempFilePath tmpdir "adb-mcp" "window_dump.xml" now]) :=
  fun _ _ _ =>
    ⟨fun _ _ => rfl, fun _ _ => rfl, fun _ _ => rfl, fun _ _ => rfl⟩

/-- C7: `cleanupTempFile` never rejects to its caller — for every path
and every unlink outcome it resolves with `ok ()`; a deletion failure
only produces a warning log entry; and a handler's primary response is
unchanged by the unlink outcome. -/
theorem cleanup_never_escalates :
    ∀ (p : String) (r : Except String Unit),
      (cleanupTempFile p r).1 = Except.ok () ∧
      (∀ e : String, (cleanupTempFile p (.error e)).2 =
          [(LogLevel.WARN, "Failed to clean up temp file " ++ p ++ ": " ++ e)]) ∧
      (∀ (tmpdir : String) (now : Nat) (args : PullArgs) (o : PullOracle)
          (u1 u2 : Except String Unit),
          (adbPullHandler tmpdir now args o u1).response =
            (adbPullHandler tmpdir now args o u2).response) := by
  intro p r
  refine ⟨?_, fun e => rfl, fun _ _ _ _ _ _ => rfl⟩
  cases r with
  | ok v => rfl
  | error e => rfl

/-- C8: when `inspect_ui` is invoked without `asBase64`, zod parsing
defaults the flag to `false` and the successful response text is the
dumped XML exactly as read from the temp file (plain text, not the
base64 branch). -/
theorem uidump_base64_default :
    ∀ (dev outP : Option String) (tmpdir : String) (now : Nat)
      (r1 r2 r3 : ExecResult) (bytes : List Nat) (xml : String)
      (u : Except String Unit),
      (parseUidumpArgs dev outP none).asBase64 = false ∧
      (inspectUiHandler tmpdir now (parseUidumpArgs dev outP none)
          ⟨.ok r1, .ok r2, .ok r3, .ok bytes, .ok xml⟩ u).response = ⟨xml, false⟩ :=
  fun _ _ _ _ _ _ _ _ _ _ => ⟨rfl, rfl⟩

/-- C9: with `lines` unsupplied, the logcat limit defaults to 50 and the
successful response is the join of a suffix of the split stdout of at
most 50 lines; with a supplied positive `lines = n`, a suffix of at most
`n` lines. -/
theorem logcat_line_limit :
    ∀ (f d : Option String) (out err : String) (n : Int),
      (parseLogcatArgs f d none).lines = 50 ∧
      (∃ L, List.IsSuffix L (splitLines out) ∧ L.length ≤ 50 ∧
          (adbLogcatHandler (parseLogcatArgs f d none) (.ok ⟨out, err⟩)).response =
            ⟨joinNL L, false⟩) ∧
      (0 < n →
        ∃ L, List.IsSuffix L (splitLines out) ∧ (L.length : Int) ≤ n ∧
          (adbLogcatHandler (parseLogcatArgs f d (some n)) (.ok ⟨out, err⟩)).response =
            ⟨joinNL L, false⟩) := by
  intro f d out err n
  refine ⟨rfl, ?_, ?_⟩
  · refine ⟨takeLast 50 (splitLines out), List.drop_suffix _ _, ?_, rfl⟩
    rw [takeLast, List.length_drop]
    omega
  · intro hn
    have hn0 : ¬ n = 0 := by omega
    refine ⟨takeLast n.toNat (splitLines out), List.drop_suffix _ _, ?_, ?_⟩
    · have hlen : (takeLast n.toNat (splitLines out)).length ≤ n.toNat := by
        rw [takeLast, List.length_drop]
        omega
      omega
    · simp [adbLogcatHandler, parseLogcatArgs, hn0, hn]

/-- Witness for C9's supplied-positive-limit part at `n = 2`. -/
theorem logcat_line_limit_witness :
    (0 : Int) < 2 ∧
    ∃ L, List.IsSuffix L (splitLines "a\nb\nc") ∧ (L.length : Int) ≤ 2 ∧
      (adbLogcatHandler (parseLogcatArgs none none (some 2))
          (.ok ⟨"a\nb\nc", ""⟩)).response = ⟨joinNL L, false⟩ :=
  ⟨by decide, (logcat_line_limit none none "a\nb\nc" "" 2).2.2 (by decide)⟩

end AdbMcp
